import Mathlib

/-!
Verification of the live-synchronization core of `web-fs-manager`
(`src/server.js`) against its natural-language specification.

The server is shallowly embedded: filesystem access (`readdir`, `stat`) is
modelled as a record of partial functions (`none` = the call throws), the
recursive directory walk `getDirectoryStructure` is translated with a fuel
argument for its recursion on filesystem contents, the WebSocket broadcast
`broadcastToClients`, the `fs.watch` callback installed by `setupWatcher`,
and the `/api/set-project` request handler become pure functions over an
explicit server state.  JavaScript string operations used by the code
(`String.prototype.includes`, `path.join`, `path.relative`,
`path.parse(...).base`) are modelled for the absolute, slash-separated
paths the server manipulates.
-/

set_option autoImplicit false

namespace WebFsManager

/-- `isPrefixList sub l` is true when `sub` occurs at the start of `l`
(character-list version of a string prefix test). -/
def isPrefixList : List Char → List Char → Bool
  | [], _ => true
  | _ :: _, [] => false
  | a :: as, b :: bs => a == b && isPrefixList as bs

/-- `containsSub sub l` is true when `sub` occurs contiguously somewhere in
`l`. -/
def containsSub (sub : List Char) : List Char → Bool
  | [] => isPrefixList sub []
  | c :: rest => isPrefixList sub (c :: rest) || containsSub sub rest

/-- JavaScript `s.includes(sub)`: substring containment test. -/
def jsIncludes (s sub : String) : Bool :=
  containsSub sub.data s.data

/-- Node.js `path.join(dir, item)` for the slash-separated absolute paths
built by the server's directory walk. -/
def jsJoin (dir item : String) : String :=
  dir ++ "/" ++ item

/-- Node.js `path.relative(root, p)` for the paths the walk produces, which
are always `root ++ "/" ++ rest`: the root itself maps to `""` and a strict
descendant to the part after the separator. -/
def jsRelative (root p : String) : String :=
  if p = root then "" else p.drop (root.length + 1)

/-- Node.js `path.parse(p).base`: the final path segment. -/
def parseBase (p : String) : String :=
  (p.splitOn "/").getLastD ""

/-- Result of a successful `fs.stat` call, restricted to the fields the
server reads (`isDirectory()`, `isFile()`, `size`). -/
structure Stat where
  isDirectory : Bool
  isFile : Bool
  size : Nat
deriving Repr, DecidableEq

/-- The filesystem as seen through the two calls the server makes:
`readdir` (listing of a directory, `none` when the call throws, e.g. the
path does not exist or is not a directory) and `stat` (`none` when the
entry cannot be stat'ed). -/
structure FS where
  readdir : String → Option (List String)
  stat : String → Option Stat

/-- One node of the JSON tree produced by `getDirectoryStructure`:
`{ name, path, type, size, children }`, where `size` is `null` for
non-files and `children` is present only for directories. -/
inductive Node where
  | mk (name path type : String) (size : Option Nat) (children : Option (List Node))
deriving Repr

/-- `src/server.js` lines 162-197.  `getDirectoryStructure(dir)`: list the
directory; for each entry stat it (a failing stat is caught and the entry
skipped), skip entries whose base name is exactly `node_modules` or `.git`,
record name / path relative to the project root / type / size, and recurse
into subdirectories.  A failing `readdir` (missing path, or a file) is
caught and yields `[]`.  The `fuel` argument bounds the recursion depth of
the embedding; every theorem supplies enough fuel for the tree at hand. -/
def getDirectoryStructure (fs : FS) (projectRoot : String) : Nat → String → List Node
  | 0, _ => []
  | fuel + 1, dir =>
    match fs.readdir dir with
    | none => []
    | some items =>
      items.filterMap (fun item =>
        let path := jsJoin dir item
        match fs.stat path with
        | none => none
        | some stats =>
          let relativePath := jsRelative projectRoot path
          if item == "node_modules" || item == ".git" then none
          else
            some (Node.mk item relativePath
              (if stats.isDirectory then "directory" else "file")
              (if stats.isFile then some stats.size else none)
              (if stats.isDirectory then
                some (getDirectoryStructure fs projectRoot fuel path)
              else none)))

/-- `mentionsName t ns` is true when some node in the forest `ns`
(recursively including children) has name `t`. -/
def mentionsName (target : String) : List Node → Bool
  | [] => false
  | Node.mk name _ _ _ none :: rest =>
      name == target || mentionsName target rest
  | Node.mk name _ _ _ (some cs) :: rest =>
      name == target || mentionsName target cs || mentionsName target rest

/-- A server-to-client message, as serialized by the server: a `structure`
message carries `{ name, path, type, children }`, a `fileChange` message
carries the changed filename, an `error` message carries a description. -/
inductive Message where
  | structureMsg (name path type : String) (children : List Node)
  | fileChange (file : String)
  | errorMsg (message : String)
deriving Repr

/-- Whether a message is a `structure` message. -/
def Message.isStructure : Message → Bool
  | .structureMsg _ _ _ _ => true
  | _ => false

/-- The `structure` message the server builds at each of its four emission
sites: name is `parse(projectRoot).base`, path is `'/'`, type is
`'directory'`, children are `getDirectoryStructure(projectRoot)`. -/
def structureMessage (fs : FS) (fuel : Nat) (projectRoot : String) : Message :=
  .structureMsg (parseBase projectRoot) "/" "directory"
    (getDirectoryStructure fs projectRoot fuel projectRoot)

/-- One connected WebSocket client: its identity and its `readyState`
(`1` is `OPEN`; anything else means the connection is not open, e.g. dead). -/
structure Client where
  id : Nat
  readyState : Nat
deriving Repr, DecidableEq

/-- `src/server.js` lines 199-209.  `broadcastToClients(message)`: snapshot
`wss.clients`; if empty return; otherwise send the serialized message to
every client whose `readyState` is `OPEN` (`1`), skipping the others.
Returns the list of `(client id, message)` deliveries performed. -/
def broadcastToClients (clients : List Client) (message : Message) :
    List (Nat × Message) :=
  if clients.length = 0 then []
  else (clients.filter (fun c => c.readyState == 1)).map (fun c => (c.id, message))

/-- `broadcastToClients` together with the client set as it stands after the
call: the function only reads `wss.clients` and sends — it contains no
unregistration, so the registered set is returned unchanged. -/
def broadcastRun (clients : List Client) (message : Message) :
    List (Nat × Message) × List Client :=
  (broadcastToClients clients message, clients)

/-- `src/server.js` lines 212-241.  The callback `fs.watch` invokes for one
raw filesystem event `(eventType, filename)`: return immediately when
`filename` is null; drop the event when the relative `filename` contains
`node_modules` or `.git` as a substring; otherwise broadcast a `fileChange`
message for the filename followed by a fresh `structure` message for the
current project root.  Returns the list of broadcasts performed for this
one raw event. -/
def watchCallback (fs : FS) (fuel : Nat) (projectRoot : String)
    (eventType : String) (filename : Option String) : List Message :=
  match eventType, filename with
  | _, none => []
  | _, some fn =>
    if jsIncludes fn "node_modules" || jsIncludes fn ".git" then []
    else
      [Message.fileChange fn,
       Message.structureMsg (parseBase projectRoot) "/" "directory"
         (getDirectoryStructure fs projectRoot fuel projectRoot)]

/-- A burst of raw watch events processed one by one by the watch callback
(there is no buffering between callback invocations): the broadcasts are
the concatenation of the broadcasts of each raw event. -/
def processBurst (fs : FS) (fuel : Nat) (projectRoot : String)
    (events : List (String × Option String)) : List Message :=
  events.flatMap (fun e => watchCallback fs fuel projectRoot e.1 e.2)

/-- `src/server.js` lines 243-245.  The watcher's `error` handler: it logs
`'File watcher error:'` with the error to the console and does nothing
else.  Returns the console lines written and the broadcasts performed. -/
def watcherOnError (err : String) : List String × List Message :=
  (["File watcher error: " ++ err], [])

/-- One watcher created by `setupWatcher`: the `fs.watch` handle, with the
root it observes and whether `close()` has been called on it. -/
structure WatchSession where
  id : Nat
  rootPath : String
  closed : Bool
deriving Repr, DecidableEq

/-- The mutable module-level state of `src/server.js`: `projectRoot`,
the `watcher` variable (identified by the id of the session it holds),
and `recentProjects` (a JavaScript `Set`, i.e. an insertion-ordered list
without duplicates).  `sessions` records every watcher ever created, so
that activity of superseded watchers can be stated; `nextId` numbers them
in creation order. -/
structure ServerState where
  projectRoot : String
  watcherId : Option Nat
  sessions : List WatchSession
  recentProjects : List String
  nextId : Nat
deriving Repr

/-- The watchers of `s` that are still open (not yet `close()`d). -/
def activeSessions (s : ServerState) : List WatchSession :=
  s.sessions.filter (fun w => !w.closed)

/-- `src/server.js` lines 211-246 (creation side).  `setupWatcher()`:
`watcher = watch(projectRoot, ...)` — a fresh watch session on the current
project root becomes the watcher. -/
def setupWatcher (s : ServerState) : ServerState :=
  { s with
    watcherId := some s.nextId
    sessions := s.sessions ++ [⟨s.nextId, s.projectRoot, false⟩]
    nextId := s.nextId + 1 }

/-- `src/server.js` lines 125-127.  `if (watcher) { watcher.close(); }`:
close the session the `watcher` variable holds, if any. -/
def closeWatcher (s : ServerState) : ServerState :=
  match s.watcherId with
  | none => s
  | some i =>
    { s with
      sessions := s.sessions.map (fun w =>
        if w.id = i then { w with closed := true } else w) }

/-- `src/server.js` lines 112-115.  `recentProjects.add(resolvedPath)` on a
JavaScript `Set` appends the path at the end when absent and leaves the set
unchanged (in particular: in place, not moved) when already present; then
`if (recentProjects.size > 10) recentProjects.delete(Array.from(recentProjects)[0])`
deletes the first-inserted (oldest) element. -/
def updateRecents (l : List String) (x : String) : List String :=
  let l' := if x ∈ l then l else l ++ [x]
  if l'.length > 10 then l'.tail else l'

/-- Outcome of an HTTP request handler: `res.json({success:true})` or
`res.status(500).json({error})`. -/
inductive Response where
  | success
  | error (message : String)
deriving Repr, DecidableEq

/-- `src/server.js` lines 95-147.  The `/api/set-project` handler: stat the
requested path (a throwing `stat` — path missing — is caught and answered
with a 500 error, state untouched); reject non-directories the same way;
otherwise set `projectRoot`, update `recentProjects`, close the old
watcher, start a new one via `setupWatcher`, and broadcast the fresh
structure to all clients.  Returns the new state, the HTTP response, and
the broadcasts performed. -/
def setProject (fs : FS) (fuel : Nat) (s : ServerState) (path : String) :
    ServerState × Response × List Message :=
  match fs.stat path with
  | none => (s, .error "stat failed", [])
  | some stats =>
    if !stats.isDirectory then (s, .error "Not a directory", [])
    else
      let s1 := { s with projectRoot := path }
      let s2 := { s1 with recentProjects := updateRecents s1.recentProjects path }
      let s3 := setupWatcher (closeWatcher s2)
      (s3, .success,
       [Message.structureMsg (parseBase s3.projectRoot) "/" "directory"
          (getDirectoryStructure fs s3.projectRoot fuel s3.projectRoot)])

/-- `src/server.js` lines 249-270.  On a new WebSocket connection the
server immediately sends the client the current structure message. -/
def connectionInitMessage (fs : FS) (fuel : Nat) (projectRoot : String) : Message :=
  .structureMsg (parseBase projectRoot) "/" "directory"
    (getDirectoryStructure fs projectRoot fuel projectRoot)

/-- A parsed client-to-server message: `{"type":"getStructure"}`, any other
well-formed message, or unparseable input (`none` at the call site). -/
inductive ClientMsg where
  | getStructure
  | other
deriving Repr, DecidableEq

/-- `src/server.js` lines 272-294.  The per-connection `message` handler:
a `getStructure` request is answered with the current structure message,
other message types are ignored, and a parse failure is caught and
answered with an error message. -/
def onClientMessage (fs : FS) (fuel : Nat) (projectRoot : String) :
    Option ClientMsg → List Message
  | none => [.errorMsg "Failed to process request"]
  | some .getStructure =>
      [.structureMsg (parseBase projectRoot) "/" "directory"
        (getDirectoryStructure fs projectRoot fuel projectRoot)]
  | some .other => []

/-- The server state as the process starts: `projectRoot` set, no watcher
yet, empty recents, followed by the initial `setupWatcher()` call of
`src/server.js` line 302. -/
def bootState (root0 : String) : ServerState :=
  setupWatcher { projectRoot := root0, watcherId := none, sessions := [],
                 recentProjects := [], nextId := 0 }

/-- A sequence of `/api/set-project` calls, each applied to the state the
previous one left (only the state is threaded; responses and broadcasts
are per-call). -/
def switchAll (fs : FS) (fuel : Nat) (s : ServerState) (paths : List String) :
    ServerState :=
  paths.foldl (fun st p => (setProject fs fuel st p).1) s

/-- The filesystem of the C1 scenario: root `/proj` contains exactly
`a.txt` (a 10-byte file), `sub` (a directory containing exactly the
20-byte file `b.txt`) and `node_modules` (a directory containing `x.js`).
The parameter `l` is the listing order `readdir('/proj')` returns the
three entries in, which the OS does not fix. -/
def projFS (l : List String) : FS where
  readdir := fun p =>
    if p = "/proj" then some l
    else if p = "/proj/sub" then some ["b.txt"]
    else if p = "/proj/node_modules" then some ["x.js"]
    else none
  stat := fun p =>
    if p = "/proj" then some ⟨true, false, 0⟩
    else if p = "/proj/a.txt" then some ⟨false, true, 10⟩
    else if p = "/proj/sub" then some ⟨true, false, 0⟩
    else if p = "/proj/sub/b.txt" then some ⟨false, true, 20⟩
    else if p = "/proj/node_modules" then some ⟨true, false, 0⟩
    else if p = "/proj/node_modules/x.js" then some ⟨false, true, 3⟩
    else none

/-- The expected node for `/proj/a.txt`: a file node of size 10. -/
def aTxtNode : Node := Node.mk "a.txt" "a.txt" "file" (some 10) none

/-- The expected node for `/proj/sub`: a directory node whose children are
exactly the one file node for `b.txt` of size 20. -/
def subDirNode : Node :=
  Node.mk "sub" "sub" "directory" none
    (some [Node.mk "b.txt" "sub/b.txt" "file" (some 20) none])

/-- A filesystem whose root `/proj` is an empty directory: the minimal
state for exercising the watch callback. -/
def emptyRootFS : FS where
  readdir := fun p => if p = "/proj" then some [] else none
  stat := fun _ => none

/-- A filesystem on which every call throws: the state of a root path that
does not exist. -/
def missingRootFS : FS where
  readdir := fun _ => none
  stat := fun _ => none

/-- A filesystem whose root `/proj` contains exactly an (empty) directory
named `.github`: its name is not exactly `.git`, but contains `.git` as a
substring. -/
def githubFS : FS where
  readdir := fun p =>
    if p = "/proj" then some [".github"]
    else if p = "/proj/.github" then some []
    else none
  stat := fun p =>
    if p = "/proj" then some ⟨true, false, 0⟩
    else if p = "/proj/.github" then some ⟨true, false, 0⟩
    else none

/-- Three registered clients; client 2's connection is dead
(`readyState = 3`, i.e. `CLOSED`), so every delivery to it fails. -/
def threeClients : List Client := [⟨1, 1⟩, ⟨2, 3⟩, ⟨3, 1⟩]

/-- The path `p` names an existing directory in `fs` (a successful
`stat` reporting a directory): the success condition of
`/api/set-project`. -/
def validDir (fs : FS) (p : String) : Prop :=
  ∃ st, fs.stat p = some st ∧ st.isDirectory = true

/-- Invariant of the server state maintained by the watcher lifecycle:
every session id is below `nextId`, and the session list consists of
already-closed sessions followed by one open session, which the `watcher`
variable holds and which watches the current project root. -/
def WatcherInv (s : ServerState) : Prop :=
  (∀ u ∈ s.sessions, u.id < s.nextId) ∧
  ∃ pre w, s.sessions = pre ++ [w] ∧ (∀ u ∈ pre, u.closed = true) ∧
    (∀ u ∈ pre, u.id ≠ w.id) ∧
    w.closed = false ∧ s.watcherId = some w.id ∧
    w.rootPath = s.projectRoot

end WebFsManager

namespace WebFsManager

theorem mentionsName_eval_one :
    mentionsName "node_modules" [aTxtNode, subDirNode] = false := by
  simp [mentionsName, aTxtNode, subDirNode]

theorem mentionsName_eval_two :
    mentionsName "node_modules" [subDirNode, aTxtNode] = false := by
  simp [mentionsName, aTxtNode, subDirNode]

/-- C1: in every filesystem state where `/proj` contains exactly the file
`a.txt` (10 bytes), the directory `sub` (containing exactly the 20-byte
file `b.txt`) and the directory `node_modules` (containing `x.js`) — i.e.
for every listing order of those three entries —
`getDirectoryStructure('/proj')` returns exactly the two nodes
`a.txt` (file, size 10) and `sub` (directory with the single child
`b.txt`, file, size 20), and no node named `node_modules` appears anywhere
in the result. -/
theorem c1_build_excludes_node_modules (l : List String)
    (h : l.Perm ["a.txt", "sub", "node_modules"]) :
    (getDirectoryStructure (projFS l) "/proj" 4 "/proj" = [aTxtNode, subDirNode] ∨
     getDirectoryStructure (projFS l) "/proj" 4 "/proj" = [subDirNode, aTxtNode]) ∧
    mentionsName "node_modules"
      (getDirectoryStructure (projFS l) "/proj" 4 "/proj") = false := by
  have h3 : l.length = 3 := h.length_eq
  rcases l with _ | ⟨x, _ | ⟨y, _ | ⟨z, _ | ⟨w, rest⟩⟩⟩⟩ <;> simp at h3
  have hx : x ∈ (["a.txt", "sub", "node_modules"] : List String) := h.subset (by simp)
  have hy : y ∈ (["a.txt", "sub", "node_modules"] : List String) := h.subset (by simp)
  have hz : z ∈ (["a.txt", "sub", "node_modules"] : List String) := h.subset (by simp)
  simp only [List.mem_cons, List.not_mem_nil, or_false] at hx hy hz
  rcases hx with h1 | h1 | h1 <;> subst h1 <;>
    rcases hy with h2 | h2 | h2 <;> subst h2 <;>
      rcases hz with h4 | h4 | h4 <;> subst h4 <;>
        first
          | exact ⟨Or.inl rfl, mentionsName_eval_one⟩
          | exact ⟨Or.inr rfl, mentionsName_eval_two⟩
          | exact absurd h (by decide)

/-- Witness for C1 at the listing order `a.txt, sub, node_modules`. -/
theorem c1_build_excludes_node_modules_witness :
    (getDirectoryStructure (projFS ["a.txt", "sub", "node_modules"]) "/proj" 4 "/proj"
        = [aTxtNode, subDirNode] ∨
     getDirectoryStructure (projFS ["a.txt", "sub", "node_modules"]) "/proj" 4 "/proj"
        = [subDirNode, aTxtNode]) ∧
    mentionsName "node_modules"
      (getDirectoryStructure (projFS ["a.txt", "sub", "node_modules"]) "/proj" 4 "/proj")
        = false :=
  c1_build_excludes_node_modules ["a.txt", "sub", "node_modules"] (List.Perm.refl _)

set_option maxRecDepth 20000 in
/-- C2, counterexample: a burst of 100 raw change events (all with the
non-ignored filename `f.txt`) fired at the watcher produces 200 broadcasts
— a `fileChange` and a `structure` broadcast per raw event — not the 1
coalesced broadcast the claim states: there is no debounce window in the
code. -/
theorem c2_counterexample_burst_of_100 :
    (processBurst emptyRootFS 1 "/proj"
      (List.replicate 100 ("change", some "f.txt"))).length = 200 ∧
    (processBurst emptyRootFS 1 "/proj"
      (List.replicate 100 ("change", some "f.txt"))).length ≠ 1 := by
  constructor <;> decide

/-- C2 as amended: the watch callback performs no coalescing — every raw
event whose filename is non-null and not ignored immediately triggers
exactly two broadcasts (`fileChange`, then `structure`), so a burst of `n`
raw events yields `2 * n` broadcasts, one pair per raw event. -/
theorem c2_no_debounce_per_event_broadcast (fs : FS) (fuel : Nat)
    (projectRoot : String) (events : List (String × Option String))
    (h : ∀ e ∈ events, ∃ fn, e.2 = some fn ∧
      (jsIncludes fn "node_modules" || jsIncludes fn ".git") = false) :
    (processBurst fs fuel projectRoot events).length = 2 * events.length := by
  induction events with
  | nil => rfl
  | cons e es ih =>
    obtain ⟨fn, hfn, hig⟩ := h e (by simp)
    have hrest := fun x hx => h x (List.mem_cons_of_mem e hx)
    rcases e with ⟨et, fno⟩
    simp only at hfn
    subst hfn
    show (watchCallback fs fuel projectRoot et (some fn) ++
      processBurst fs fuel projectRoot es).length = 2 * (es.length + 1)
    rw [List.length_append, ih hrest]
    have hcb : watchCallback fs fuel projectRoot et (some fn) =
        [Message.fileChange fn,
         Message.structureMsg (parseBase projectRoot) "/" "directory"
           (getDirectoryStructure fs projectRoot fuel projectRoot)] := by
      simp [watchCallback, hig]
    rw [hcb]
    simp
    ring

/-- Witness for the amended C2 at the 100-event burst. -/
theorem c2_no_debounce_per_event_broadcast_witness :
    (processBurst emptyRootFS 1 "/proj"
      (List.replicate 100 ("change", some "f.txt"))).length =
      2 * (List.replicate 100 (("change", some "f.txt") :
        String × Option String)).length :=
  c2_no_debounce_per_event_broadcast emptyRootFS 1 "/proj" _
    (fun e he => by
      rw [List.eq_of_mem_replicate he]
      exact ⟨"f.txt", rfl, rfl⟩)

/-- C3, counterexample: with three registered clients of which client 2's
connection is dead, `broadcastToClients` delivers to clients 1 and 3 and
returns normally, but the registered client set afterwards still contains
client 2 — the claim's assertion that client 2 is afterwards absent from
the registered set fails: the function never unregisters a client. -/
theorem c3_counterexample_client_not_unregistered :
    (broadcastRun threeClients (Message.fileChange "f")).1 =
      [(1, Message.fileChange "f"), (3, Message.fileChange "f")] ∧
    (broadcastRun threeClients (Message.fileChange "f")).2 = threeClients ∧
    Client.mk 2 3 ∈ (broadcastRun threeClients (Message.fileChange "f")).2 := by
  refine ⟨rfl, rfl, ?_⟩
  simp [broadcastRun, threeClients]

/-- C3 as amended: with three registered clients where client 2's
connection is dead (any `readyState` other than `OPEN`), broadcasting
still delivers to clients 1 and 3 and no error propagates to the caller —
the dead client is skipped by the `readyState` check — but client 2 is
not removed: the registered set is returned unchanged, client 2
included. -/
theorem c3_broadcast_skips_dead_client (rs : Nat) (msg : Message)
    (h : rs ≠ 1) :
    broadcastRun [⟨1, 1⟩, ⟨2, rs⟩, ⟨3, 1⟩] msg =
      ([(1, msg), (3, msg)], [⟨1, 1⟩, ⟨2, rs⟩, ⟨3, 1⟩]) := by
  have hb : (rs == 1) = false := beq_eq_false_iff_ne.mpr h
  simp [broadcastRun, broadcastToClients, List.filter, hb]

/-- Witness for the amended C3 at `readyState = 3` (`CLOSED`). -/
theorem c3_broadcast_skips_dead_client_witness :
    broadcastRun [⟨1, 1⟩, ⟨2, 3⟩, ⟨3, 1⟩] (Message.fileChange "f") =
      ([(1, Message.fileChange "f"), (3, Message.fileChange "f")],
       [⟨1, 1⟩, ⟨2, 3⟩, ⟨3, 1⟩]) :=
  c3_broadcast_skips_dead_client 3 (Message.fileChange "f") (by decide)

/-- C6, counterexample: called on a root path on which `readdir` throws
(the path does not exist, or is a file), `getDirectoryStructure` catches
the error and returns the successful empty result `[]` — it signals no
`NotFound` / `NotADirectory` error to its caller (its try/catch leaves the
function no error channel at all). -/
theorem c6_counterexample_missing_root_yields_empty :
    getDirectoryStructure missingRootFS "/gone" 5 "/gone" = [] := rfl

/-- C6 as amended: whenever listing the requested directory fails (root
missing or not a directory), `getDirectoryStructure` catches the error,
logs it, and returns the empty list to its caller as a successful
result. -/
theorem c6_build_swallows_root_error (fs : FS) (root dir : String)
    (fuel : Nat) (h : fs.readdir dir = none) :
    getDirectoryStructure fs root (fuel + 1) dir = [] := by
  simp [getDirectoryStructure, h]

/-- Witness for the amended C6 on the all-throwing filesystem. -/
theorem c6_build_swallows_root_error_witness :
    getDirectoryStructure missingRootFS "/gone" 5 "/gone" = [] :=
  c6_build_swallows_root_error missingRootFS "/gone" "/gone" 4 rfl

/-- C8, counterexample: the watcher's `error` handler, given an OS-level
watch error, writes one console line and broadcasts nothing — no `Error`
message is delivered to any client, contradicting the claim that the
failure is surfaced to clients rather than merely logged. -/
theorem c8_counterexample_error_only_logged :
    watcherOnError "EPERM: operation not permitted" =
      (["File watcher error: EPERM: operation not permitted"], []) := rfl

/-- C8 as amended: for every OS-level error raised by the active watch
session, the handler only logs the error to the console; no message of any
kind (in particular no `Error` message) is broadcast to the connected
clients, and the watcher is left as is. -/
theorem c8_watch_error_never_broadcast (err : String) :
    (watcherOnError err).2 = [] ∧
    (watcherOnError err).1 = ["File watcher error: " ++ err] :=
  ⟨rfl, rfl⟩

theorem closeWatcher_eq (s : ServerState) (pre : List WatchSession)
    (w : WatchSession) (hs : s.sessions = pre ++ [w])
    (hw : s.watcherId = some w.id) (hpre : ∀ u ∈ pre, u.id ≠ w.id) :
    closeWatcher s = { s with sessions := pre ++ [{ w with closed := true }] } := by
  simp only [closeWatcher, hw, hs]
  congr 1
  rw [List.map_append]
  congr 1
  · have h1 : pre.map (fun u =>
        if u.id = w.id then { u with closed := true } else u) = pre.map id :=
      List.map_congr_left (fun u hu => by rw [if_neg (hpre u hu)]; rfl)
    rw [h1, List.map_id]
  · simp

theorem allClosed_activeSessions (s : ServerState)
    (h : ∀ u ∈ s.sessions, u.closed = true) : activeSessions s = [] := by
  simp only [activeSessions]
  rw [List.filter_eq_nil_iff]
  intro u hu
  simp [h u hu]

theorem closeWatcher_projectRoot (s : ServerState) :
    (closeWatcher s).projectRoot = s.projectRoot := by
  rcases h : s.watcherId with _ | i <;> simp [closeWatcher, h]

theorem setupWatcher_projectRoot (s : ServerState) :
    (setupWatcher s).projectRoot = s.projectRoot := rfl

theorem watcherInv_boot (root0 : String) : WatcherInv (bootState root0) := by
  refine ⟨?_, [], ⟨0, root0, false⟩, rfl, by simp, by simp, rfl, rfl, rfl⟩
  intro u hu
  simp only [bootState, setupWatcher, List.nil_append, List.mem_singleton] at hu
  subst hu
  exact Nat.zero_lt_one

theorem watcherInv_setProject (fs : FS) (fuel : Nat) (s : ServerState)
    (p : String) (hInv : WatcherInv s) (hv : validDir fs p) :
    WatcherInv (setProject fs fuel s p).1 ∧
    (setProject fs fuel s p).1 =
      setupWatcher (closeWatcher
        { s with
          projectRoot := p
          recentProjects := updateRecents s.recentProjects p }) ∧
    activeSessions (closeWatcher
        { s with
          projectRoot := p
          recentProjects := updateRecents s.recentProjects p }) = [] := by
  obtain ⟨st, hst, hdir⟩ := hv
  obtain ⟨hlt, pre, w, hsess, hcl, hid, hwopen, hwid, hwroot⟩ := hInv
  have hcw : closeWatcher
      { s with
        projectRoot := p
        recentProjects := updateRecents s.recentProjects p } =
      { s with
        projectRoot := p
        recentProjects := updateRecents s.recentProjects p
        sessions := pre ++ [{ w with closed := true }] } :=
    closeWatcher_eq _ pre w hsess hwid hid
  have hproj : (setProject fs fuel s p).1 =
      setupWatcher (closeWatcher
        { s with
          projectRoot := p
          recentProjects := updateRecents s.recentProjects p }) := by
    simp [setProject, hst, hdir]
  have hallcl : ∀ u ∈ (closeWatcher
      { s with
        projectRoot := p
        recentProjects := updateRecents s.recentProjects p }).sessions,
      u.closed = true := by
    rw [hcw]
    intro u hu
    rcases List.mem_append.mp hu with h1 | h1
    · exact hcl u h1
    · rcases List.mem_singleton.mp h1 with rfl
      rfl
  refine ⟨?_, hproj, allClosed_activeSessions _ hallcl⟩
  rw [hproj, hcw]
  refine ⟨?_, pre ++ [{ w with closed := true }], ⟨s.nextId, p, false⟩,
    by simp [setupWatcher], ?_, ?_, rfl, rfl, rfl⟩
  · intro u hu
    simp only [setupWatcher, List.mem_append, List.mem_singleton] at hu
    rcases hu with (h1 | h1) | h1
    · exact Nat.lt_succ_of_lt (hlt u (by rw [hsess]; exact List.mem_append_left _ h1))
    · subst h1
      exact Nat.lt_succ_of_lt
        (hlt w (by rw [hsess]; exact List.mem_append_right _ (by simp)))
    · subst h1
      exact Nat.lt_succ_self _
  · intro u hu
    rcases List.mem_append.mp hu with h1 | h1
    · exact hcl u h1
    · rcases List.mem_singleton.mp h1 with rfl
      rfl
  · intro u hu
    have hu' : u.id < s.nextId := by
      rcases List.mem_append.mp hu with h1 | h1
      · exact hlt u (by rw [hsess]; exact List.mem_append_left _ h1)
      · rcases List.mem_singleton.mp h1 with rfl
        exact hlt w (by rw [hsess]; exact List.mem_append_right _ (by simp))
    exact Nat.ne_of_lt hu'

theorem watcherInv_switchAll (fs : FS) (fuel : Nat) (paths : List String) :
    ∀ s : ServerState, WatcherInv s → (∀ p ∈ paths, validDir fs p) →
      WatcherInv (switchAll fs fuel s paths) := by
  induction paths with
  | nil => exact fun s h _ => h
  | cons p ps ih =>
    intro s h hv
    exact ih _ (watcherInv_setProject fs fuel s p h (hv p (by simp))).1
      (fun q hq => hv q (List.mem_cons_of_mem p hq))

/-- C4: starting from the booted server (which has started its initial
watcher), after any nonempty sequence of successful `/api/set-project`
calls exactly one watch session is open — it is the most recently created
one and it watches the current project root — and every previously created
session has been closed; moreover each successful switch closes the old
watcher strictly before starting the new one: the final state is
`setupWatcher` applied to an intermediate state (root and recents updated,
old watcher closed) in which no session at all is active. -/
theorem c4_exactly_one_active_watcher (fs : FS) (fuel : Nat) (root0 : String)
    (paths : List String) (_hne : paths ≠ [])
    (hv : ∀ p ∈ paths, validDir fs p) :
    (∃ w pre,
       (switchAll fs fuel (bootState root0) paths).sessions = pre ++ [w] ∧
       activeSessions (switchAll fs fuel (bootState root0) paths) = [w] ∧
       w.closed = false ∧
       w.rootPath = (switchAll fs fuel (bootState root0) paths).projectRoot ∧
       (∀ u ∈ pre, u.closed = true)) ∧
    (∀ s p, WatcherInv s → validDir fs p →
       activeSessions (closeWatcher
         { s with
           projectRoot := p
           recentProjects := updateRecents s.recentProjects p }) = [] ∧
       (setProject fs fuel s p).1 = setupWatcher (closeWatcher
         { s with
           projectRoot := p
           recentProjects := updateRecents s.recentProjects p })) := by
  constructor
  · have hInv : WatcherInv (switchAll fs fuel (bootState root0) paths) :=
      watcherInv_switchAll fs fuel paths (bootState root0) (watcherInv_boot root0) hv
    obtain ⟨hlt, pre, w, hsess, hcl, hid, hwopen, hwid, hwroot⟩ := hInv
    refine ⟨w, pre, hsess, ?_, hwopen, hwroot, hcl⟩
    simp only [activeSessions, hsess, List.filter_append]
    rw [List.filter_eq_nil_iff.mpr (fun u hu => by simp [hcl u hu]),
      List.nil_append]
    simp [hwopen]
  · intro s p hInv hvp
    obtain ⟨-, h2, h3⟩ := watcherInv_setProject fs fuel s p hInv hvp
    exact ⟨h3, h2⟩

/-- Witness for C4: one successful switch of the booted server to
`/proj` on the C1 scenario filesystem. -/
theorem c4_exactly_one_active_watcher_witness :
    (∃ w pre,
       (switchAll (projFS ["a.txt", "sub", "node_modules"]) 1
         (bootState "/old") ["/proj"]).sessions = pre ++ [w] ∧
       activeSessions (switchAll (projFS ["a.txt", "sub", "node_modules"]) 1
         (bootState "/old") ["/proj"]) = [w] ∧
       w.closed = false ∧
       w.rootPath = (switchAll (projFS ["a.txt", "sub", "node_modules"]) 1
         (bootState "/old") ["/proj"]).projectRoot ∧
       (∀ u ∈ pre, u.closed = true)) ∧
    (∀ s p, WatcherInv s → validDir (projFS ["a.txt", "sub", "node_modules"]) p →
       activeSessions (closeWatcher
         { s with
           projectRoot := p
           recentProjects := updateRecents s.recentProjects p }) = [] ∧
       (setProject (projFS ["a.txt", "sub", "node_modules"]) 1 s p).1 =
         setupWatcher (closeWatcher
           { s with
             projectRoot := p
             recentProjects := updateRecents s.recentProjects p })) :=
  c4_exactly_one_active_watcher (projFS ["a.txt", "sub", "node_modules"]) 1
    "/old" ["/proj"] (by simp)
    (fun p hp => by
      rw [List.mem_singleton] at hp
      subst hp
      exact ⟨⟨true, false, 0⟩, rfl, rfl⟩)

/-- C5, counterexample: starting from an empty recent list, switching to
`a` and then to `b` leaves the recent list as `["a", "b"]` — the newly
selected path `b` is present, but the list is ordered oldest first: its
head is `a`, not the most recent `b`, refuting the claimed most-recent
first order (and with it the claimed promotion to the front). -/
theorem c5_counterexample_oldest_first :
    updateRecents (updateRecents [] "a") "b" = ["a", "b"] ∧
    (updateRecents (updateRecents [] "a") "b").head? ≠ some "b" := by
  constructor <;> decide

/-- C5 as amended: after a successful switch the recent list contains the
newly selected path exactly once (the JavaScript `Set` deduplicates) and
has length at most 10 with the first (oldest) entry evicted when capacity
would be exceeded, but the order is least-recent first: a new path is
appended at the end, and an already-present path is left in place rather
than promoted. -/
theorem c5_recents_append_without_promotion (l : List String) (x : String)
    (hnd : l.Nodup) (hlen : l.length ≤ 10) :
    (updateRecents l x).Nodup ∧
    (updateRecents l x).length ≤ 10 ∧
    (updateRecents l x).count x = 1 ∧
    (x ∈ l → updateRecents l x = l) ∧
    (x ∉ l → l.length < 10 → updateRecents l x = l ++ [x]) ∧
    (x ∉ l → l.length = 10 → updateRecents l x = l.tail ++ [x]) := by
  by_cases hx : x ∈ l
  · have hres : updateRecents l x = l := by
      simp only [updateRecents]
      rw [if_pos hx, if_neg (by omega : ¬ l.length > 10)]
    rw [hres]
    exact ⟨hnd, hlen, List.count_eq_one_of_mem hnd hx, fun _ => rfl,
      fun hc _ => absurd hx hc, fun hc _ => absurd hx hc⟩
  · rcases Nat.lt_or_ge l.length 10 with hlt | hge
    · have hres : updateRecents l x = l ++ [x] := by
        simp only [updateRecents]
        rw [if_neg hx, if_neg]
        simp only [List.length_append, List.length_cons, List.length_nil]
        omega
      rw [hres]
      refine ⟨?_, ?_, ?_, fun hc => absurd hc hx, fun _ _ => rfl,
        fun _ hc => by omega⟩
      · simp [List.nodup_append, hnd, hx]
      · simp only [List.length_append, List.length_cons, List.length_nil]
        omega
      · simp [List.count_append, List.count_eq_zero_of_not_mem hx]
    · have h10 : l.length = 10 := by omega
      rcases l with _ | ⟨a, t⟩
      · simp at h10
      · have ht9 : t.length = 9 := by
          simp only [List.length_cons] at h10
          omega
        have hres : updateRecents (a :: t) x = t ++ [x] := by
          simp only [updateRecents]
          rw [if_neg hx, if_pos]
          · rfl
          · simp only [List.cons_append, List.length_cons, List.length_append,
              List.length_nil]
            omega
        rw [hres]
        have hndt : t.Nodup := hnd.of_cons
        have hxt : x ∉ t := fun hmem => hx (List.mem_cons_of_mem a hmem)
        refine ⟨?_, ?_, ?_, fun hc => absurd hc hx,
          fun _ hc => by simp only [List.length_cons] at hc; omega,
          fun _ _ => rfl⟩
        · simp [List.nodup_append, hndt, hxt]
        · simp only [List.length_append, List.length_cons, List.length_nil]
          omega
        · simp [List.count_append, List.count_eq_zero_of_not_mem hxt]

/-- Witness for the amended C5: switching to `b` while the recent list is
`["a"]`. -/
theorem c5_recents_append_without_promotion_witness :
    (updateRecents ["a"] "b").Nodup ∧
    (updateRecents ["a"] "b").length ≤ 10 ∧
    (updateRecents ["a"] "b").count "b" = 1 ∧
    ("b" ∈ (["a"] : List String) → updateRecents ["a"] "b" = ["a"]) ∧
    ("b" ∉ (["a"] : List String) → (["a"] : List String).length < 10 →
      updateRecents ["a"] "b" = ["a"] ++ ["b"]) ∧
    ("b" ∉ (["a"] : List String) → (["a"] : List String).length = 10 →
      updateRecents ["a"] "b" = (["a"] : List String).tail ++ ["b"]) :=
  c5_recents_append_without_promotion ["a"] "b" (by decide) (by decide)

/-- C7: a `/api/set-project` request whose path cannot be stat'ed (it does
not exist) or is not a directory is answered with an error response, no
broadcast is performed, and the server state — current root, recent list,
watcher, sessions — is exactly the state before the request. -/
theorem c7_invalid_root_leaves_state_unchanged (fs : FS) (fuel : Nat)
    (s : ServerState) (path : String)
    (h : fs.stat path = none ∨
      ∃ st, fs.stat path = some st ∧ st.isDirectory = false) :
    (setProject fs fuel s path).1 = s ∧
    (∃ msg, (setProject fs fuel s path).2.1 = Response.error msg) ∧
    (setProject fs fuel s path).2.2 = [] := by
  rcases h with h | ⟨st, hst, hdir⟩
  · refine ⟨?_, ⟨"stat failed", ?_⟩, ?_⟩ <;> simp [setProject, h]
  · refine ⟨?_, ⟨"Not a directory", ?_⟩, ?_⟩ <;> simp [setProject, hst, hdir]

/-- Witness for C7: a set-project request for a nonexistent path against
the booted server. -/
theorem c7_invalid_root_leaves_state_unchanged_witness :
    (setProject missingRootFS 1 (bootState "/x") "/gone").1 = bootState "/x" ∧
    (∃ msg, (setProject missingRootFS 1 (bootState "/x") "/gone").2.1 =
      Response.error msg) ∧
    (setProject missingRootFS 1 (bootState "/x") "/gone").2.2 = [] :=
  c7_invalid_root_leaves_state_unchanged missingRootFS 1 (bootState "/x")
    "/gone" (Or.inl rfl)

/-- C9: the watcher's filter and the tree builder's filter disagree.  The
watch callback drops every event whose relative filename contains
`node_modules` or `.git` as a substring, whereas the builder skips only
entries whose exact base name is `node_modules` or `.git` (a sole
non-matching entry always yields its node).  In particular `.github`
contains `.git` as a substring without being equal to it, so a directory
named `.github` appears in the snapshot built from `githubFS`, yet the
watch callback broadcasts nothing for a change under `.github`. -/
theorem c9_watcher_and_builder_filters_disagree (fs : FS) (fuel : Nat)
    (root et fn : String)
    (hfn : (jsIncludes fn "node_modules" || jsIncludes fn ".git") = true)
    (gfs : FS) (fuel2 : Nat) (root2 dir item : String) (st : Stat)
    (hread : gfs.readdir dir = some [item])
    (hstat : gfs.stat (jsJoin dir item) = some st)
    (hneq : (item == "node_modules" || item == ".git") = false) :
    watchCallback fs fuel root et (some fn) = [] ∧
    getDirectoryStructure gfs root2 (fuel2 + 1) dir =
      [Node.mk item (jsRelative root2 (jsJoin dir item))
        (if st.isDirectory then "directory" else "file")
        (if st.isFile then some st.size else none)
        (if st.isDirectory then
          some (getDirectoryStructure gfs root2 fuel2 (jsJoin dir item))
        else none)] ∧
    jsIncludes ".github" ".git" = true ∧
    (".github" == "node_modules" || ".github" == ".git") = false ∧
    mentionsName ".github"
      (getDirectoryStructure githubFS "/proj" 2 "/proj") = true ∧
    watchCallback fs fuel root et (some ".github/workflows/ci.yml") = [] := by
  refine ⟨?_, ?_, by decide, by decide, ?_, ?_⟩
  · simp [watchCallback, hfn]
  · have hn1 : item ≠ "node_modules" := by
      intro hh
      rw [hh] at hneq
      simp at hneq
    have hn2 : item ≠ ".git" := by
      intro hh
      rw [hh] at hneq
      simp at hneq
    simp [getDirectoryStructure, hread, hstat, List.filterMap_cons, hn1, hn2]
  · have hbuild : getDirectoryStructure githubFS "/proj" 2 "/proj" =
        [Node.mk ".github" ".github" "directory" none (some [])] := rfl
    rw [hbuild]
    simp [mentionsName]
  · have hig : (jsIncludes ".github/workflows/ci.yml" "node_modules" ||
        jsIncludes ".github/workflows/ci.yml" ".git") = true := by decide
    simp [watchCallback, hig]

/-- Witness for C9 at the dropped filename `.git`, with the `.github`
entry of `githubFS` as the non-excluded builder entry. -/
theorem c9_watcher_and_builder_filters_disagree_witness :
    watchCallback emptyRootFS 1 "/proj" "change" (some ".git") = [] ∧
    getDirectoryStructure githubFS "/proj" (1 + 1) "/proj" =
      [Node.mk ".github" (jsRelative "/proj" (jsJoin "/proj" ".github"))
        (if (⟨true, false, 0⟩ : Stat).isDirectory then "directory" else "file")
        (if (⟨true, false, 0⟩ : Stat).isFile then
          some (⟨true, false, 0⟩ : Stat).size
        else none)
        (if (⟨true, false, 0⟩ : Stat).isDirectory then
          some (getDirectoryStructure githubFS "/proj" 1 (jsJoin "/proj" ".github"))
        else none)] ∧
    jsIncludes ".github" ".git" = true ∧
    (".github" == "node_modules" || ".github" == ".git") = false ∧
    mentionsName ".github"
      (getDirectoryStructure githubFS "/proj" 2 "/proj") = true ∧
    watchCallback emptyRootFS 1 "/proj" "change"
      (some ".github/workflows/ci.yml") = [] :=
  c9_watcher_and_builder_filters_disagree emptyRootFS 1 "/proj" "change"
    ".git" (by decide) githubFS 1 "/proj" "/proj" ".github" ⟨true, false, 0⟩
    rfl rfl (by decide)

/-- C10: every `structure` message the server emits — the initial message
on a new connection, the reply to a `getStructure` request, the broadcasts
of the watch callback, and the broadcast of a successful
`/api/set-project` — carries a root node whose `path` is `/`, whose `type`
is `directory`, whose `name` is the base name of the current project root,
and whose `children` are `getDirectoryStructure` of the current project
root (for set-project, the newly selected root, which the state then
reports as current). -/
theorem c10_structure_messages_uniform (fs : FS) (fuel : Nat)
    (root et : String) (fn : Option String) (cm : Option ClientMsg)
    (s s' : ServerState) (path : String) (r : Response) (msgs : List Message)
    (hsp : setProject fs fuel s path = (s', r, msgs))
    (hr : r = Response.success) :
    connectionInitMessage fs fuel root = structureMessage fs fuel root ∧
    (∀ m ∈ onClientMessage fs fuel root cm, m.isStructure = true →
      m = structureMessage fs fuel root) ∧
    (∀ m ∈ watchCallback fs fuel root et fn, m.isStructure = true →
      m = structureMessage fs fuel root) ∧
    s'.projectRoot = path ∧
    (∀ m ∈ msgs, m.isStructure = true →
      m = structureMessage fs fuel s'.projectRoot) := by
  subst hr
  have key : s'.projectRoot = path ∧
      msgs = [Message.structureMsg (parseBase path) "/" "directory"
        (getDirectoryStructure fs path fuel path)] := by
    rcases hstat : fs.stat path with _ | st
    · simp [setProject, hstat] at hsp
    · rcases hd : st.isDirectory with _ | _
      · simp [setProject, hstat, hd] at hsp
      · rw [setProject] at hsp
        rw [hstat] at hsp
        simp only [hd, Bool.not_true, Bool.false_eq_true, if_false,
          Prod.mk.injEq] at hsp
        obtain ⟨h1, -, h3⟩ := hsp
        subst h1
        rw [setupWatcher_projectRoot, closeWatcher_projectRoot] at h3
        refine ⟨?_, h3.symm⟩
        rw [setupWatcher_projectRoot, closeWatcher_projectRoot]
  refine ⟨rfl, ?_, ?_, key.1, ?_⟩
  · rcases cm with _ | cmv
    · intro m hm hstruct
      simp only [onClientMessage, List.mem_singleton] at hm
      subst hm
      simp [Message.isStructure] at hstruct
    · rcases cmv with _ | _
      · intro m hm _
        simp only [onClientMessage, List.mem_singleton] at hm
        subst hm
        rfl
      · intro m hm _
        simp [onClientMessage] at hm
  · rcases fn with _ | f
    · intro m hm _
      simp [watchCallback] at hm
    · by_cases hig : (jsIncludes f "node_modules" || jsIncludes f ".git") = true
      · intro m hm _
        simp [watchCallback, hig] at hm
      · intro m hm hstruct
        rw [watchCallback] at hm
        rw [if_neg (by simpa using hig)] at hm
        rcases List.mem_cons.mp hm with h1 | h1
        · subst h1
          simp [Message.isStructure] at hstruct
        · rcases List.mem_singleton.mp h1 with rfl
          rfl
  · intro m hm _
    rw [key.2] at hm
    rcases List.mem_singleton.mp hm with rfl
    rw [key.1]
    rfl

/-- Witness for C10: the booted server successfully switched to `/proj`
on the C1 scenario filesystem, with a watch event for `a.txt` and a
`getStructure` request in flight. -/
theorem c10_structure_messages_uniform_witness :
    connectionInitMessage (projFS ["a.txt", "sub", "node_modules"]) 1 "/proj" =
      structureMessage (projFS ["a.txt", "sub", "node_modules"]) 1 "/proj" ∧
    (∀ m ∈ onClientMessage (projFS ["a.txt", "sub", "node_modules"]) 1 "/proj"
        (some ClientMsg.getStructure), m.isStructure = true →
      m = structureMessage (projFS ["a.txt", "sub", "node_modules"]) 1 "/proj") ∧
    (∀ m ∈ watchCallback (projFS ["a.txt", "sub", "node_modules"]) 1 "/proj"
        "change" (some "a.txt"), m.isStructure = true →
      m = structureMessage (projFS ["a.txt", "sub", "node_modules"]) 1 "/proj") ∧
    (setProject (projFS ["a.txt", "sub", "node_modules"]) 1 (bootState "/old")
      "/proj").1.projectRoot = "/proj" ∧
    (∀ m ∈ (setProject (projFS ["a.txt", "sub", "node_modules"]) 1
        (bootState "/old") "/proj").2.2, m.isStructure = true →
      m = structureMessage (projFS ["a.txt", "sub", "node_modules"]) 1
        (setProject (projFS ["a.txt", "sub", "node_modules"]) 1
          (bootState "/old") "/proj").1.projectRoot) :=
  c10_structure_messages_uniform (projFS ["a.txt", "sub", "node_modules"]) 1
    "/proj" "change" (some "a.txt") (some ClientMsg.getStructure)
    (bootState "/old")
    (setProject (projFS ["a.txt", "sub", "node_modules"]) 1 (bootState "/old")
      "/proj").1
    "/proj"
    (setProject (projFS ["a.txt", "sub", "node_modules"]) 1 (bootState "/old")
      "/proj").2.1
    (setProject (projFS ["a.txt", "sub", "node_modules"]) 1 (bootState "/old")
      "/proj").2.2
    rfl rfl

end WebFsManager
